import Mathlib

/-!
Verification development for the Blue Waters backend (alert generation and
advisory pipeline). The Python sources `main.py`, `models.py` and
`utils/watsonx.py` are shallowly embedded: pydantic models become structures,
the external network world (IAM token exchange, chat-completion endpoint,
uuid generator, wall clock) becomes an explicit environment, and functions
that may raise `HTTPException` return `Except HTTPException _`.
-/

namespace BlueWaters

/-- Embedding of `models.Disease` (models.py): id, name, riskLevel,
description, causedBy. -/
structure Disease where
  id : String
  name : String
  riskLevel : String
  description : String
  causedBy : List String
deriving DecidableEq, Repr

/-- Embedding of `models.Metric` (models.py). The Python `float` value is
modelled as `Rat`; the pipeline only copies values, never computes with them. -/
structure Metric where
  id : String
  name : String
  value : Rat
  unit : String
  safeRange : List Rat
  status : String
  icon : String
deriving DecidableEq, Repr

/-- Embedding of `models.WaterSource` (models.py). -/
structure WaterSource where
  id : String
  name : String
  location : String
  type : String
  metrics : List Metric
  diseases : List Disease
deriving DecidableEq, Repr

/-- Embedding of `models.Alert` (models.py). `id` is the uuid generated at
construction, `timestamp` the `datetime.now()` reading (modelled as `Nat`). -/
structure Alert where
  id : String
  message : String
  source : String
  level : String
  metric : String
  value : Rat
  unit : String
  timestamp : Nat
deriving DecidableEq, Repr

/-- Embedding of `models.QualityPrediction` (models.py). -/
structure QualityPrediction where
  score : Int
  status : String
  description : String
  improvementSteps : List String
deriving DecidableEq, Repr

/-- Embedding of `fastapi.HTTPException` as raised by main.py: a status code
and a detail message. -/
structure HTTPException where
  status_code : Nat
  detail : String
deriving DecidableEq, Repr

/-- The `message` object of one completion choice, as accessed by
`choices[0].get("message", {}).get("content", ...)` in main.py line 93.
`content = none` models a message JSON object without a `content` key. -/
structure ChoiceMessage where
  content : Option String
deriving DecidableEq, Repr

/-- One element of the `choices` list of a completion response.
`message = none` models a choice JSON object without a `message` key. -/
structure Choice where
  message : Option ChoiceMessage
deriving DecidableEq, Repr

/-- The parsed JSON body of a completion response, restricted to the fields
main.py reads: `response.json().get("choices", [])` (a missing `choices` key
is already the empty list here). -/
structure CompletionResponse where
  choices : List Choice
deriving DecidableEq, Repr

/-- Outcome of the `requests.post` to the completion endpoint in main.py
line 84: either a `requests.exceptions.RequestException` (network failure,
timeout, or a bad status via `raise_for_status`) carrying its message, or a
successfully parsed response body. -/
inductive CompletionOutcome where
  | failure (errMsg : String)
  | success (resp : CompletionResponse)
deriving DecidableEq, Repr

/-- The parsed JSON body of the IAM token exchange response together with its
HTTP status, as read by `get_bearer_token` in main.py lines 45-53.
`access_token = none` models a 200 body without an `access_token` key
(Python's `.get` then yields `None`). -/
structure IAMResponse where
  status_code : Nat
  access_token : Option String
deriving DecidableEq, Repr

/-- The external network world one `query_watsonx` call interacts with: the
IAM token-exchange response and, for each prompt, the completion outcome. -/
structure WatsonWorld where
  iam : IAMResponse
  completion : String → CompletionOutcome

/-- Embedding of `get_bearer_token` (main.py lines 41-53): on HTTP 200 return
`response.json().get("access_token")` (possibly absent), otherwise raise
`HTTPException(500, "Failed to authenticate with WatsonX")`. -/
def get_bearer_token (w : WatsonWorld) : Except HTTPException (Option String) :=
  if w.iam.status_code = 200 then
    Except.ok w.iam.access_token
  else
    Except.error ⟨500, "Failed to authenticate with WatsonX"⟩

/-- Embedding of the extraction in main.py lines 91-95:
`choices[0].get("message", {}).get("content", "No response from AI.")` when
`choices` is non-empty, else the fallback string. -/
def extractReply (resp : CompletionResponse) : String :=
  match resp.choices with
  | [] => "No response from AI."
  | c :: _ => ((c.message.getD ⟨none⟩).content).getD "No response from AI."

/-- Embedding of `query_watsonx` (main.py lines 56-98): acquire a bearer
token (propagating its `HTTPException`), post the completion request, turn a
`RequestException` into `HTTPException(500, "Request failed: ...")`, and
otherwise extract the reply text from the `choices` list. -/
def query_watsonx (w : WatsonWorld) (prompt : String) : Except HTTPException String := do
  let _token ← get_bearer_token w
  match w.completion prompt with
  | CompletionOutcome.failure e => Except.error ⟨500, "Request failed: " ++ e⟩
  | CompletionOutcome.success resp => Except.ok (extractReply resp)

/-- Embedding of `get_water_source_by_id` (main.py lines 107-112),
parameterised by the `water_sources` fixture list from `data.py`:
`next((source for source in water_sources if source.id == source_id), None)`,
raising `HTTPException(404, "Water source not found")` on `None`. -/
def get_water_source_by_id (water_sources : List WaterSource) (source_id : String) :
    Except HTTPException WaterSource :=
  match water_sources.find? (fun source => source.id = source_id) with
  | none => Except.error ⟨404, "Water source not found"⟩
  | some source => Except.ok source

/-- Embedding of `get_quality_prediction` (main.py lines 120-125),
parameterised by the `quality_predictions` dict from `data.py` as an
association list: `quality_predictions.get(source_id)`, raising
`HTTPException(404, "Prediction not found")` when absent (a pydantic model
instance is always truthy, so `if not prediction` means "absent"). -/
def get_quality_prediction (quality_predictions : List (String × QualityPrediction))
    (source_id : String) : Except HTTPException QualityPrediction :=
  match quality_predictions.lookup source_id with
  | none => Except.error ⟨404, "Prediction not found"⟩
  | some p => Except.ok p

/-- The prompt synthesised for a metric with status `"danger"`
(main.py line 148). -/
def dangerPrompt (metric : Metric) : String :=
  "Provide advice for high " ++ metric.name ++ " level (" ++
    toString metric.value ++ " " ++ metric.unit ++ ")"

/-- The prompt synthesised for a metric with status `"warning"`
(main.py line 160). -/
def warningPrompt (metric : Metric) : String :=
  "Provide advice for warning " ++ metric.name ++ " level (" ++
    toString metric.value ++ " " ++ metric.unit ++ ")"

/-- The prompt synthesised for a disease with riskLevel `"high"`
(main.py line 179). -/
def highRiskPrompt (disease : Disease) : String :=
  "Provide advice for high health risk from " ++ disease.name

/-- The prompt synthesised for a disease with riskLevel `"medium"`
(main.py line 191). -/
def mediumRiskPrompt (disease : Disease) : String :=
  "Provide advice for medium health risk from " ++ disease.name

/-- The full environment of one aggregation pass: the network world, the
uuid4 generator (`uuid n` is the n-th uuid drawn during the pass, consumed by
`Alert.__init__` in models.py lines 41-44) and the wall clock (`clock n` is
the `datetime.now()` reading taken when the n-th alert is built). -/
structure Env where
  world : WatsonWorld
  uuid : Nat → String
  clock : Nat → Nat

/-- Embedding of the loop body of `check_water_quality_alerts` (main.py lines
144-171), recursing over the metric list. `k` counts the alerts built so far
in this aggregation pass; each built alert consumes one uuid draw and one
clock reading. The `ai_advice` call happens before the alert is built, so a
failing call aborts the whole function with its `HTTPException`. -/
def checkWaterQualityAux (env : Env) (sourceName : String) :
    List Metric → Nat → Except HTTPException (List Alert × Nat)
  | [], k => Except.ok ([], k)
  | metric :: rest, k =>
    if metric.status = "danger" then do
      let ai_advice ← query_watsonx env.world (dangerPrompt metric)
      let alert : Alert :=
        { id := env.uuid k
          message := metric.name ++ " is " ++ toString metric.value ++ " " ++
            metric.unit ++ ", which is outside the safe range. Blue Waters AI Advice: " ++
            ai_advice
          source := sourceName
          level := "critical"
          metric := metric.name
          value := metric.value
          unit := metric.unit
          timestamp := env.clock k }
      let (alerts, k2) ← checkWaterQualityAux env sourceName rest (k + 1)
      Except.ok (alert :: alerts, k2)
    else if metric.status = "warning" then do
      let ai_advice ← query_watsonx env.world (warningPrompt metric)
      let alert : Alert :=
        { id := env.uuid k
          message := metric.name ++ " is approaching unsafe levels, currently " ++
            toString metric.value ++ " " ++ metric.unit ++
            ". Blue Waters AI Advice: " ++ ai_advice
          source := sourceName
          level := "warning"
          metric := metric.name
          value := metric.value
          unit := metric.unit
          timestamp := env.clock k }
      let (alerts, k2) ← checkWaterQualityAux env sourceName rest (k + 1)
      Except.ok (alert :: alerts, k2)
    else
      checkWaterQualityAux env sourceName rest k

/-- Embedding of `check_water_quality_alerts` (main.py lines 144-171). -/
def check_water_quality_alerts (env : Env) (source : WaterSource) (k : Nat) :
    Except HTTPException (List Alert × Nat) :=
  checkWaterQualityAux env source.name source.metrics k

/-- Embedding of the loop body of `check_health_risk_alerts` (main.py lines
175-202), recursing over the disease list, with the same counter threading as
`checkWaterQualityAux`. -/
def checkHealthRiskAux (env : Env) (sourceName : String) :
    List Disease → Nat → Except HTTPException (List Alert × Nat)
  | [], k => Except.ok ([], k)
  | disease :: rest, k =>
    if disease.riskLevel = "high" then do
      let ai_advice ← query_watsonx env.world (highRiskPrompt disease)
      let alert : Alert :=
        { id := env.uuid k
          message := "Health risk: " ++ disease.name ++
            ". This water source poses a high health risk due to " ++
            String.intercalate ", " disease.causedBy ++
            ". Blue Waters AI Advice: " ++ ai_advice
          source := sourceName
          level := "critical"
          metric := disease.name
          value := 0
          unit := ""
          timestamp := env.clock k }
      let (alerts, k2) ← checkHealthRiskAux env sourceName rest (k + 1)
      Except.ok (alert :: alerts, k2)
    else if disease.riskLevel = "medium" then do
      let ai_advice ← query_watsonx env.world (mediumRiskPrompt disease)
      let alert : Alert :=
        { id := env.uuid k
          message := "Health risk: " ++ disease.name ++
            ". Moderate health risk detected. Take necessary precautions. Blue Waters AI Advice: " ++
            ai_advice
          source := sourceName
          level := "warning"
          metric := disease.name
          value := 0
          unit := ""
          timestamp := env.clock k }
      let (alerts, k2) ← checkHealthRiskAux env sourceName rest (k + 1)
      Except.ok (alert :: alerts, k2)
    else
      checkHealthRiskAux env sourceName rest k

/-- Embedding of `check_health_risk_alerts` (main.py lines 175-202). -/
def check_health_risk_alerts (env : Env) (source : WaterSource) (k : Nat) :
    Except HTTPException (List Alert × Nat) :=
  checkHealthRiskAux env source.name source.diseases k

/-- Embedding of the loop of `get_alerts` (main.py lines 128-140): for each
source in order, extend the accumulated list with the water-quality alerts
and then the health-risk alerts of that source. -/
def getAlertsAux (env : Env) :
    List WaterSource → Nat → Except HTTPException (List Alert × Nat)
  | [], k => Except.ok ([], k)
  | source :: rest, k => do
    let (water_quality_alerts, k1) ← check_water_quality_alerts env source k
    let (health_risk_alerts, k2) ← check_health_risk_alerts env source k1
    let (alerts, k3) ← getAlertsAux env rest k2
    Except.ok (water_quality_alerts ++ health_risk_alerts ++ alerts, k3)

/-- Embedding of the `/alerts` endpoint `get_alerts` (main.py lines 128-140),
parameterised by the `water_sources` fixture list from `data.py`. -/
def get_alerts (env : Env) (water_sources : List WaterSource) :
    Except HTTPException (List Alert) :=
  (getAlertsAux env water_sources 0).map Prod.fst

/-- The JSON body returned by the agent endpoints: `{"response": ai_response}`. -/
structure AgentResponse where
  response : String
deriving DecidableEq, Repr

/-- Embedding of the `/water-quality-agent` endpoint `water_quality_agent`
(main.py lines 206-210): the query string is forwarded verbatim to
`query_watsonx` and the reply is wrapped as `{"response": ai_response}`. -/
def water_quality_agent (w : WatsonWorld) (query : String) :
    Except HTTPException AgentResponse :=
  (query_watsonx w query).map (fun ai_response => ⟨ai_response⟩)

/-- Embedding of the `/health-risk-agent` endpoint `health_risk_agent`
(main.py lines 214-218), identical in shape to `water_quality_agent`. -/
def health_risk_agent (w : WatsonWorld) (query : String) :
    Except HTTPException AgentResponse :=
  (query_watsonx w query).map (fun ai_response => ⟨ai_response⟩)

/-- Spec-side predicate (spec §8): a metric qualifies for an alert iff its
status is "danger" or "warning". -/
def qualifiesMetric (m : Metric) : Bool :=
  m.status = "danger" || m.status = "warning"

/-- Spec-side predicate (spec §8): a disease qualifies for an alert iff its
riskLevel is "high" or "medium". -/
def qualifiesDisease (d : Disease) : Bool :=
  d.riskLevel = "high" || d.riskLevel = "medium"

/-- The observable shape of an alert: source name, severity level,
metric-or-disease name, value and unit. -/
def alertShape (a : Alert) : String × String × String × Rat × String :=
  (a.source, a.level, a.metric, a.value, a.unit)

/-- Spec-side characterisation (spec §8, §4.2): the shape the spec expects
for the alert of a qualifying metric. -/
def metricAlertShape (sourceName : String) (m : Metric) :
    String × String × String × Rat × String :=
  (sourceName, if m.status = "danger" then "critical" else "warning",
    m.name, m.value, m.unit)

/-- Spec-side characterisation (spec §8, §4.2): the shape the spec expects
for the alert of a qualifying disease: value 0 and empty unit. -/
def diseaseAlertShape (sourceName : String) (d : Disease) :
    String × String × String × Rat × String :=
  (sourceName, if d.riskLevel = "high" then "critical" else "warning",
    d.name, (0 : Rat), "")

/-- Spec-side characterisation (spec §4.2): the expected alert shapes of one
source, qualifying metrics first, then qualifying diseases. -/
def specSourceAlerts (s : WaterSource) :
    List (String × String × String × Rat × String) :=
  (s.metrics.filter qualifiesMetric).map (metricAlertShape s.name) ++
    (s.diseases.filter qualifiesDisease).map (diseaseAlertShape s.name)

/-- Spec-side characterisation (spec §4.3, §8): the expected alert shapes of
a full aggregation pass, in stored source order. -/
def specAlerts (sources : List WaterSource) :
    List (String × String × String × Rat × String) :=
  sources.flatMap specSourceAlerts

/-- The uuid draws consumed by the alerts numbered `k, …, k + n - 1` of an
aggregation pass. -/
def uuidRange (env : Env) (k n : Nat) : List String :=
  (List.range n).map (fun i => env.uuid (k + i))

/-- The external world lets every advisory call succeed: the IAM exchange
returns HTTP 200 and every completion request yields a parsed response. -/
def watsonOK (w : WatsonWorld) : Prop :=
  w.iam.status_code = 200 ∧
    ∀ prompt, ∃ resp, w.completion prompt = CompletionOutcome.success resp

theorem uuidRange_succ (env : Env) (k n : Nat) :
    uuidRange env k (n + 1) = env.uuid k :: uuidRange env (k + 1) n := by
  simp only [uuidRange, List.range_succ_eq_map, List.map_cons, List.map_map,
    Nat.add_zero]
  refine congrArg _ (List.map_congr_left fun i _ => ?_)
  simp only [Function.comp]
  exact congrArg env.uuid (by omega)

theorem uuidRange_append (env : Env) (k n m : Nat) :
    uuidRange env k (n + m) = uuidRange env k n ++ uuidRange env (k + n) m := by
  induction n generalizing k with
  | zero => simp [uuidRange]
  | succ n ih =>
    have h1 : n + 1 + m = (n + m) + 1 := by omega
    rw [h1, uuidRange_succ, uuidRange_succ, ih (k + 1)]
    have h2 : k + 1 + n = k + (n + 1) := by omega
    rw [h2]
    rfl

theorem uuidRange_nodup (env : Env) (hinj : Function.Injective env.uuid)
    (k n : Nat) : (uuidRange env k n).Nodup := by
  refine List.Nodup.map ?_ (List.nodup_range n)
  intro a b h
  have := hinj h
  omega

theorem query_watsonx_isOk (w : WatsonWorld) (hok : watsonOK w)
    (prompt : String) : ∃ s, query_watsonx w prompt = Except.ok s := by
  obtain ⟨hiam, hcomp⟩ := hok
  obtain ⟨resp, hr⟩ := hcomp prompt
  exact ⟨extractReply resp, by
    simp [query_watsonx, get_bearer_token, hiam, hr, bind, Except.bind]⟩

theorem checkWaterQualityAux_ok_spec (env : Env) (sourceName : String) :
    ∀ (ms : List Metric) (k : Nat) (al : List Alert) (k2 : Nat),
      checkWaterQualityAux env sourceName ms k = Except.ok (al, k2) →
      al.map alertShape = (ms.filter qualifiesMetric).map (metricAlertShape sourceName) ∧
      al.map Alert.id = uuidRange env k al.length ∧
      k2 = k + al.length := by
  intro ms
  induction ms with
  | nil =>
    intro k al k2 h
    simp only [checkWaterQualityAux, Except.ok.injEq, Prod.mk.injEq] at h
    obtain ⟨h1, h2⟩ := h
    subst h1
    subst h2
    simp [uuidRange]
  | cons m rest ih =>
    intro k al k2 h
    by_cases hd : m.status = "danger"
    · rw [checkWaterQualityAux, if_pos hd] at h
      cases hq : query_watsonx env.world (dangerPrompt m) with
      | error e =>
        rw [hq] at h
        simp [bind, Except.bind] at h
      | ok advice =>
        rw [hq] at h
        simp only [bind, Except.bind] at h
        cases hrec : checkWaterQualityAux env sourceName rest (k + 1) with
        | error e =>
          rw [hrec] at h
          simp at h
        | ok p =>
          obtain ⟨alerts, k3⟩ := p
          rw [hrec] at h
          simp only [Except.ok.injEq, Prod.mk.injEq] at h
          obtain ⟨h1, h2⟩ := h
          subst h1
          subst h2
          obtain ⟨ih1, ih2, ih3⟩ := ih (k + 1) alerts k3 hrec
          refine ⟨?_, ?_, ?_⟩
          · simp [qualifiesMetric, hd, alertShape, metricAlertShape, ih1]
          · simp only [List.map_cons, List.length_cons, uuidRange_succ, ih2]
          · simp only [List.length_cons]
            omega
    · by_cases hw : m.status = "warning"
      · rw [checkWaterQualityAux, if_neg hd, if_pos hw] at h
        cases hq : query_watsonx env.world (warningPrompt m) with
        | error e =>
          rw [hq] at h
          simp [bind, Except.bind] at h
        | ok advice =>
          rw [hq] at h
          simp only [bind, Except.bind] at h
          cases hrec : checkWaterQualityAux env sourceName rest (k + 1) with
          | error e =>
            rw [hrec] at h
            simp at h
          | ok p =>
            obtain ⟨alerts, k3⟩ := p
            rw [hrec] at h
            simp only [Except.ok.injEq, Prod.mk.injEq] at h
            obtain ⟨h1, h2⟩ := h
            subst h1
            subst h2
            obtain ⟨ih1, ih2, ih3⟩ := ih (k + 1) alerts k3 hrec
            refine ⟨?_, ?_, ?_⟩
            · simp [qualifiesMetric, hd, hw, alertShape, metricAlertShape, ih1]
            · simp only [List.map_cons, List.length_cons, uuidRange_succ, ih2]
            · simp only [List.length_cons]
              omega
      · rw [checkWaterQualityAux, if_neg hd, if_neg hw] at h
        obtain ⟨ih1, ih2, ih3⟩ := ih k al k2 h
        refine ⟨?_, ih2, ih3⟩
        simp [qualifiesMetric, hd, hw, ih1]

theorem checkHealthRiskAux_ok_spec (env : Env) (sourceName : String) :
    ∀ (ds : List Disease) (k : Nat) (al : List Alert) (k2 : Nat),
      checkHealthRiskAux env sourceName ds k = Except.ok (al, k2) →
      al.map alertShape = (ds.filter qualifiesDisease).map (diseaseAlertShape sourceName) ∧
      al.map Alert.id = uuidRange env k al.length ∧
      k2 = k + al.length := by
  intro ds
  induction ds with
  | nil =>
    intro k al k2 h
    simp only [checkHealthRiskAux, Except.ok.injEq, Prod.mk.injEq] at h
    obtain ⟨h1, h2⟩ := h
    subst h1
    subst h2
    simp [uuidRange]
  | cons d rest ih =>
    intro k al k2 h
    by_cases hh : d.riskLevel = "high"
    · rw [checkHealthRiskAux, if_pos hh] at h
      cases hq : query_watsonx env.world (highRiskPrompt d) with
      | error e =>
        rw [hq] at h
        simp [bind, Except.bind] at h
      | ok advice =>
        rw [hq] at h
        simp only [bind, Except.bind] at h
        cases hrec : checkHealthRiskAux env sourceName rest (k + 1) with
        | error e =>
          rw [hrec] at h
          simp at h
        | ok p =>
          obtain ⟨alerts, k3⟩ := p
          rw [hrec] at h
          simp only [Except.ok.injEq, Prod.mk.injEq] at h
          obtain ⟨h1, h2⟩ := h
          subst h1
          subst h2
          obtain ⟨ih1, ih2, ih3⟩ := ih (k + 1) alerts k3 hrec
          refine ⟨?_, ?_, ?_⟩
          · simp [qualifiesDisease, hh, alertShape, diseaseAlertShape, ih1]
          · simp only [List.map_cons, List.length_cons, uuidRange_succ, ih2]
          · simp only [List.length_cons]
            omega
    · by_cases hm : d.riskLevel = "medium"
      · rw [checkHealthRiskAux, if_neg hh, if_pos hm] at h
        cases hq : query_watsonx env.world (mediumRiskPrompt d) with
        | error e =>
          rw [hq] at h
          simp [bind, Except.bind] at h
        | ok advice =>
          rw [hq] at h
          simp only [bind, Except.bind] at h
          cases hrec : checkHealthRiskAux env sourceName rest (k + 1) with
          | error e =>
            rw [hrec] at h
            simp at h
          | ok p =>
            obtain ⟨alerts, k3⟩ := p
            rw [hrec] at h
            simp only [Except.ok.injEq, Prod.mk.injEq] at h
            obtain ⟨h1, h2⟩ := h
            subst h1
            subst h2
            obtain ⟨ih1, ih2, ih3⟩ := ih (k + 1) alerts k3 hrec
            refine ⟨?_, ?_, ?_⟩
            · simp [qualifiesDisease, hh, hm, alertShape, diseaseAlertShape, ih1]
            · simp only [List.map_cons, List.length_cons, uuidRange_succ, ih2]
            · simp only [List.length_cons]
              omega
      · rw [checkHealthRiskAux, if_neg hh, if_neg hm] at h
        obtain ⟨ih1, ih2, ih3⟩ := ih k al k2 h
        refine ⟨?_, ih2, ih3⟩
        simp [qualifiesDisease, hh, hm, ih1]

theorem checkWaterQualityAux_total (env : Env) (sourceName : String)
    (hok : watsonOK env.world) :
    ∀ (ms : List Metric) (k : Nat),
      ∃ al k2, checkWaterQualityAux env sourceName ms k = Except.ok (al, k2) := by
  intro ms
  induction ms with
  | nil => exact fun k => ⟨[], k, rfl⟩
  | cons m rest ih =>
    intro k
    by_cases hd : m.status = "danger"
    · obtain ⟨advice, hq⟩ := query_watsonx_isOk env.world hok (dangerPrompt m)
      obtain ⟨al, k2, hrec⟩ := ih (k + 1)
      simp only [checkWaterQualityAux, if_pos hd, hq, bind, Except.bind, hrec]
      exact ⟨_, _, rfl⟩
    · by_cases hw : m.status = "warning"
      · obtain ⟨advice, hq⟩ := query_watsonx_isOk env.world hok (warningPrompt m)
        obtain ⟨al, k2, hrec⟩ := ih (k + 1)
        simp only [checkWaterQualityAux, if_neg hd, if_pos hw, hq, bind, Except.bind, hrec]
        exact ⟨_, _, rfl⟩
      · obtain ⟨al, k2, hrec⟩ := ih k
        refine ⟨al, k2, ?_⟩
        rw [checkWaterQualityAux, if_neg hd, if_neg hw]
        exact hrec

theorem checkHealthRiskAux_total (env : Env) (sourceName : String)
    (hok : watsonOK env.world) :
    ∀ (ds : List Disease) (k : Nat),
      ∃ al k2, checkHealthRiskAux env sourceName ds k = Except.ok (al, k2) := by
  intro ds
  induction ds with
  | nil => exact fun k => ⟨[], k, rfl⟩
  | cons d rest ih =>
    intro k
    by_cases hh : d.riskLevel = "high"
    · obtain ⟨advice, hq⟩ := query_watsonx_isOk env.world hok (highRiskPrompt d)
      obtain ⟨al, k2, hrec⟩ := ih (k + 1)
      simp only [checkHealthRiskAux, if_pos hh, hq, bind, Except.bind, hrec]
      exact ⟨_, _, rfl⟩
    · by_cases hm : d.riskLevel = "medium"
      · obtain ⟨advice, hq⟩ := query_watsonx_isOk env.world hok (mediumRiskPrompt d)
        obtain ⟨al, k2, hrec⟩ := ih (k + 1)
        simp only [checkHealthRiskAux, if_neg hh, if_pos hm, hq, bind, Except.bind, hrec]
        exact ⟨_, _, rfl⟩
      · obtain ⟨al, k2, hrec⟩ := ih k
        refine ⟨al, k2, ?_⟩
        rw [checkHealthRiskAux, if_neg hh, if_neg hm]
        exact hrec

theorem specAlerts_cons (s : WaterSource) (rest : List WaterSource) :
    specAlerts (s :: rest) = specSourceAlerts s ++ specAlerts rest := by
  simp [specAlerts]

theorem getAlertsAux_ok_spec (env : Env) :
    ∀ (sources : List WaterSource) (k : Nat) (al : List Alert) (k2 : Nat),
      getAlertsAux env sources k = Except.ok (al, k2) →
      al.map alertShape = specAlerts sources ∧
      al.map Alert.id = uuidRange env k al.length ∧
      k2 = k + al.length := by
  intro sources
  induction sources with
  | nil =>
    intro k al k2 h
    simp only [getAlertsAux, Except.ok.injEq, Prod.mk.injEq] at h
    obtain ⟨h1, h2⟩ := h
    subst h1
    subst h2
    simp [specAlerts, uuidRange]
  | cons s rest ih =>
    intro k al k2 h
    rw [getAlertsAux] at h
    cases hwq : check_water_quality_alerts env s k with
    | error e =>
      rw [hwq] at h
      simp [bind, Except.bind] at h
    | ok p1 =>
      obtain ⟨wq, k1⟩ := p1
      rw [hwq] at h
      simp only [bind, Except.bind] at h
      cases hhr : check_health_risk_alerts env s k1 with
      | error e =>
        rw [hhr] at h
        simp at h
      | ok p2 =>
        obtain ⟨hr, kk⟩ := p2
        rw [hhr] at h
        simp only at h
        cases hrec : getAlertsAux env rest kk with
        | error e =>
          rw [hrec] at h
          simp at h
        | ok p3 =>
          obtain ⟨tail, k3⟩ := p3
          rw [hrec] at h
          simp only [Except.ok.injEq, Prod.mk.injEq] at h
          obtain ⟨h1, h2⟩ := h
          subst h1
          subst h2
          obtain ⟨w1, w2, w3⟩ :=
            checkWaterQualityAux_ok_spec env s.name s.metrics k wq k1 hwq
          obtain ⟨d1, d2, d3⟩ :=
            checkHealthRiskAux_ok_spec env s.name s.diseases k1 hr kk hhr
          obtain ⟨t1, t2, t3⟩ := ih kk tail k3 hrec
          subst w3
          subst d3
          subst t3
          refine ⟨?_, ?_, ?_⟩
          · simp only [List.map_append, w1, d1, t1, specAlerts_cons,
              specSourceAlerts, List.append_assoc]
          · simp only [List.map_append, w2, d2, t2, List.length_append]
            rw [uuidRange_append env k (wq.length + hr.length) tail.length,
              uuidRange_append env k wq.length hr.length, ← Nat.add_assoc]
          · simp only [List.length_append]
            omega

theorem getAlertsAux_total (env : Env) (hok : watsonOK env.world) :
    ∀ (sources : List WaterSource) (k : Nat),
      ∃ al k2, getAlertsAux env sources k = Except.ok (al, k2) := by
  intro sources
  induction sources with
  | nil => exact fun k => ⟨[], k, rfl⟩
  | cons s rest ih =>
    intro k
    obtain ⟨wq, k1, hwq⟩ :=
      checkWaterQualityAux_total env s.name hok s.metrics k
    obtain ⟨hr, kk, hhr⟩ :=
      checkHealthRiskAux_total env s.name hok s.diseases k1
    obtain ⟨tail, k3, hrec⟩ := ih kk
    have hwq2 : check_water_quality_alerts env s k = Except.ok (wq, k1) := hwq
    have hhr2 : check_health_risk_alerts env s k1 = Except.ok (hr, kk) := hhr
    simp only [getAlertsAux, hwq2, hhr2, hrec, bind, Except.bind]
    exact ⟨_, _, rfl⟩

/-- C1: for every water source, whenever the advisory world lets every call
succeed, `check_water_quality_alerts` produces, in metric order, exactly one
alert per qualifying metric and none for the others: a "critical" alert when
the metric's status is "danger" and a "warning" alert when it is "warning",
in both cases carrying the metric's value and unit; a "safe" (or other)
status yields no alert. -/
theorem metric_alert_classification (env : Env) (source : WaterSource)
    (k : Nat) (hok : watsonOK env.world) :
    (check_water_quality_alerts env source k).toOption.map
        (fun p => p.1.map alertShape) =
      some ((source.metrics.filter qualifiesMetric).map
        (metricAlertShape source.name)) := by
  obtain ⟨al, k2, h⟩ :=
    checkWaterQualityAux_total env source.name hok source.metrics k
  obtain ⟨h1, -, -⟩ :=
    checkWaterQualityAux_ok_spec env source.name source.metrics k al k2 h
  have h2 : check_water_quality_alerts env source k = Except.ok (al, k2) := h
  rw [h2]
  simp [Except.toOption, h1]

/-- C2: for every water source, whenever the advisory world lets every call
succeed, `check_health_risk_alerts` produces, in disease order, exactly one
alert per qualifying disease and none for the others: a "critical" alert with
value 0 and empty unit when riskLevel is "high", a "warning" alert with value
0 and empty unit when it is "medium", and nothing when it is "low". -/
theorem disease_alert_classification (env : Env) (source : WaterSource)
    (k : Nat) (hok : watsonOK env.world) :
    (check_health_risk_alerts env source k).toOption.map
        (fun p => p.1.map alertShape) =
      some ((source.diseases.filter qualifiesDisease).map
        (diseaseAlertShape source.name)) := by
  obtain ⟨al, k2, h⟩ :=
    checkHealthRiskAux_total env source.name hok source.diseases k
  obtain ⟨h1, -, -⟩ :=
    checkHealthRiskAux_ok_spec env source.name source.diseases k al k2 h
  have h2 : check_health_risk_alerts env source k = Except.ok (al, k2) := h
  rw [h2]
  simp [Except.toOption, h1]

/-- C3: whenever the advisory world lets every call succeed, `get_alerts`
returns exactly one alert per qualifying entry — as many alerts as there are
qualifying metrics and diseases over all sources — ordered by the stored
order of sources and, within each source, metrics first then diseases, each
in iteration order. -/
theorem alerts_aggregation_complete (env : Env) (sources : List WaterSource)
    (hok : watsonOK env.world) :
    (get_alerts env sources).toOption.map (fun l => l.map alertShape) =
        some (specAlerts sources) ∧
      (get_alerts env sources).toOption.map List.length =
        some (specAlerts sources).length := by
  obtain ⟨al, k2, h⟩ := getAlertsAux_total env hok sources 0
  obtain ⟨h1, -, -⟩ := getAlertsAux_ok_spec env sources 0 al k2 h
  have hlen : al.length = (specAlerts sources).length := by
    have := congrArg List.length h1
    simpa using this
  constructor
  · simp [get_alerts, h, Except.toOption, Except.map, h1]
  · simp [get_alerts, h, Except.toOption, Except.map, hlen]

/-- C4: the alerts listing is all-or-nothing: whatever the advisory world
does, `get_alerts` either raises an `HTTPException` and returns no alert list
at all, or returns the complete list covering every qualifying entry of every
source — there is no partial list containing only the alerts produced before
a failing advisory call. -/
theorem alerts_all_or_nothing (env : Env) (sources : List WaterSource) :
    (∃ e, get_alerts env sources = Except.error e) ∨
      ∃ l, get_alerts env sources = Except.ok l ∧
        l.map alertShape = specAlerts sources := by
  cases hx : getAlertsAux env sources 0 with
  | error e =>
    exact Or.inl ⟨e, by simp [get_alerts, hx, Except.map]⟩
  | ok p =>
    obtain ⟨al, k2⟩ := p
    exact Or.inr ⟨al, by simp [get_alerts, hx, Except.map],
      (getAlertsAux_ok_spec env sources 0 al k2 hx).1⟩

/-- C8: whenever the uuid generator never repeats a value within an
aggregation pass, all alerts returned by `get_alerts` carry pairwise distinct
identifiers, and those identifiers are exactly the consecutive uuid draws
`0, …, length - 1` of the pass — one fresh draw per constructed alert. -/
theorem alert_ids_unique (env : Env) (sources : List WaterSource)
    (l : List Alert) (hinj : Function.Injective env.uuid)
    (h : get_alerts env sources = Except.ok l) :
    l.map Alert.id = uuidRange env 0 l.length ∧ (l.map Alert.id).Nodup := by
  unfold get_alerts at h
  cases hx : getAlertsAux env sources 0 with
  | error e =>
    rw [hx] at h
    simp [Except.map] at h
  | ok p =>
    obtain ⟨al, k2⟩ := p
    rw [hx] at h
    simp only [Except.map, Except.ok.injEq] at h
    subst h
    obtain ⟨-, h2, -⟩ := getAlertsAux_ok_spec env sources 0 al k2 hx
    refine ⟨h2, ?_⟩
    rw [h2]
    exact uuidRange_nodup env hinj 0 al.length

/-- C5: when authentication succeeds and the completion endpoint returns a
response whose choices list is empty, `query_watsonx` returns the literal
fallback "No response from AI." instead of raising. -/
theorem empty_choices_fallback (w : WatsonWorld) (prompt : String)
    (resp : CompletionResponse) (hiam : w.iam.status_code = 200)
    (hc : w.completion prompt = CompletionOutcome.success resp)
    (hch : resp.choices = []) :
    query_watsonx w prompt = Except.ok "No response from AI." := by
  simp [query_watsonx, get_bearer_token, hiam, hc, bind, Except.bind,
    extractReply, hch]

/-- C10: when authentication succeeds and the completion endpoint returns a
non-empty choices list whose first choice has no "message" object, or a
message without a "content" field, `query_watsonx` returns the same fallback
"No response from AI." instead of raising — not only in the empty-choices
case. -/
theorem missing_content_fallback (w : WatsonWorld) (prompt : String)
    (resp : CompletionResponse) (c : Choice) (restC : List Choice)
    (hiam : w.iam.status_code = 200)
    (hc : w.completion prompt = CompletionOutcome.success resp)
    (hch : resp.choices = c :: restC)
    (hmsg : c.message = none ∨ ∃ m, c.message = some m ∧ m.content = none) :
    query_watsonx w prompt = Except.ok "No response from AI." := by
  have hex : extractReply resp = "No response from AI." := by
    rw [extractReply, hch]
    rcases hmsg with hm | ⟨m, hm, hcontent⟩
    · simp [hm]
    · simp [hm, hcontent]
  simp [query_watsonx, get_bearer_token, hiam, hc, bind, Except.bind, hex]

theorem lookup_eq_none_of_not_mem {β : Type} (ps : List (String × β))
    (a : String) (h : ∀ p ∈ ps, p.1 ≠ a) : ps.lookup a = none := by
  induction ps with
  | nil => rfl
  | cons p rest ih =>
    obtain ⟨pk, pv⟩ := p
    have hp : pk ≠ a := h (pk, pv) (by simp)
    have hbeq : (a == pk) = false :=
      beq_eq_false_iff_ne.mpr fun hq => hp hq.symm
    simp only [List.lookup, hbeq]
    exact ih fun q hq => h q (by simp [hq])

/-- C6: for an identifier absent from the data store, fetching a water source
by id yields a 404 "Water source not found" error, and fetching a quality
prediction by source id yields a 404 "Prediction not found" error — neither
crashes nor returns a value. -/
theorem unknown_id_yields_not_found (sources : List WaterSource)
    (preds : List (String × QualityPrediction)) (source_id : String)
    (h1 : ∀ s ∈ sources, s.id ≠ source_id)
    (h2 : ∀ p ∈ preds, p.1 ≠ source_id) :
    get_water_source_by_id sources source_id =
        Except.error ⟨404, "Water source not found"⟩ ∧
      get_quality_prediction preds source_id =
        Except.error ⟨404, "Prediction not found"⟩ := by
  constructor
  · have hf : sources.find? (fun source => source.id = source_id) = none := by
      rw [List.find?_eq_none]
      intro s hs
      simpa using h1 s hs
    simp [get_water_source_by_id, hf]
  · have hl : preds.lookup source_id = none :=
      lookup_eq_none_of_not_mem preds source_id h2
    simp [get_quality_prediction, hl]

/-- C9: a metric whose status is neither "danger" nor "warning", and a
disease whose riskLevel is neither "high" nor "medium" (including tags
outside the documented sets), are skipped exactly: the classifier treats the
entry like the safe/low case, producing no alert, consuming no uuid draw and
issuing no advisory call. -/
theorem unrecognised_tags_produce_no_alert (env : Env) (sourceName : String)
    (m : Metric) (ms : List Metric) (d : Disease) (ds : List Disease)
    (k : Nat) (hm1 : m.status ≠ "danger") (hm2 : m.status ≠ "warning")
    (hd1 : d.riskLevel ≠ "high") (hd2 : d.riskLevel ≠ "medium") :
    checkWaterQualityAux env sourceName (m :: ms) k =
        checkWaterQualityAux env sourceName ms k ∧
      checkHealthRiskAux env sourceName (d :: ds) k =
        checkHealthRiskAux env sourceName ds k := by
  constructor
  · rw [checkWaterQualityAux, if_neg hm1, if_neg hm2]
  · rw [checkHealthRiskAux, if_neg hd1, if_neg hd2]

/-- A world whose completion endpoint answers every prompt with the fixed
text "Generic advice about water.". -/
def wGeneric : WatsonWorld :=
  { iam := ⟨200, some "token"⟩
    completion := fun _ =>
      CompletionOutcome.success ⟨[⟨some ⟨some "Generic advice about water."⟩⟩]⟩ }

/-- C7 counterexample: the `/water-quality-agent` endpoint is not a canned
lookup. On the query "Is tap water safe?" — which matches no stored key — it
returns whatever the AI replied, here "Generic advice about water.", and not
the fallback "I'm sorry, I don't have an answer for that." demanded by the
claim for non-matching queries. -/
theorem agent_canned_lookup_counterexample :
    water_quality_agent wGeneric "Is tap water safe?" =
        Except.ok ⟨"Generic advice about water."⟩ ∧
      "Generic advice about water." ≠
        "I'm sorry, I don't have an answer for that." := by
  constructor
  · rfl
  · decide

/-- C7 amended: `water_quality_agent` involves the AI on every path: any
successful response it returns is the completion endpoint's reply to the
query itself, forwarded verbatim as the prompt — there is no canned mapping
and no "I'm sorry" fallback in this code path. -/
theorem agent_forwards_to_advisory (w : WatsonWorld) (query : String)
    (r : AgentResponse) (h : water_quality_agent w query = Except.ok r) :
    w.iam.status_code = 200 ∧
      ∃ resp, w.completion query = CompletionOutcome.success resp ∧
        r.response = extractReply resp := by
  unfold water_quality_agent query_watsonx at h
  by_cases hiam : w.iam.status_code = 200
  · refine ⟨hiam, ?_⟩
    simp only [get_bearer_token, hiam, if_pos, bind, Except.bind] at h
    cases hc : w.completion query with
    | failure e =>
      rw [hc] at h
      simp [Except.map] at h
    | success resp =>
      rw [hc] at h
      simp only [Except.map, Except.ok.injEq] at h
      exact ⟨resp, rfl, by rw [← h]⟩
  · exfalso
    simp [get_bearer_token, hiam, bind, Except.bind, Except.map] at h

/-- A fully successful world: IAM returns 200 and every completion request
yields a (choices-empty) parsed response. -/
def wOK : WatsonWorld :=
  { iam := ⟨200, some "token"⟩
    completion := fun _ => CompletionOutcome.success ⟨[]⟩ }

/-- A deterministic stand-in for the uuid4 stream: the n-th draw is the
string of n letters a, so distinct draws are distinct strings. -/
def uuidW : Nat → String := fun n => String.mk (List.replicate n 'a')

/-- A concrete aggregation environment over `wOK`. -/
def envW : Env := { world := wOK, uuid := uuidW, clock := fun n => n }

/-- A concrete water source with one qualifying and one safe metric, and one
qualifying and one low-risk disease. -/
def srcW : WaterSource :=
  { id := "ws1"
    name := "Lake Naledi"
    location := "North"
    type := "lake"
    metrics :=
      [ { id := "m1", name := "pH", value := 5, unit := "mg/L",
          safeRange := [0, 7], status := "danger", icon := "drop" },
        { id := "m2", name := "Turbidity", value := 1, unit := "NTU",
          safeRange := [0, 5], status := "safe", icon := "eye" } ]
    diseases :=
      [ { id := "d1", name := "Cholera", riskLevel := "high",
          description := "Severe", causedBy := ["bacteria"] },
        { id := "d2", name := "Typhoid", riskLevel := "low",
          description := "Mild", causedBy := [] } ] }

/-- The alert list `get_alerts envW [srcW]` evaluates to. -/
def alertsW : List Alert :=
  [ { id := ""
      message := "pH is 5 mg/L, which is outside the safe range. Blue Waters AI Advice: No response from AI."
      source := "Lake Naledi"
      level := "critical"
      metric := "pH"
      value := 5
      unit := "mg/L"
      timestamp := 0 },
    { id := "a"
      message := "Health risk: Cholera. This water source poses a high health risk due to bacteria. Blue Waters AI Advice: No response from AI."
      source := "Lake Naledi"
      level := "critical"
      metric := "Cholera"
      value := 0
      unit := ""
      timestamp := 1 } ]

/-- Witness for C1 at the concrete environment `envW` and source `srcW`. -/
theorem metric_alert_classification_witness :
    watsonOK envW.world ∧
      (check_water_quality_alerts envW srcW 0).toOption.map
          (fun p => p.1.map alertShape) =
        some ((srcW.metrics.filter qualifiesMetric).map
          (metricAlertShape srcW.name)) :=
  ⟨⟨rfl, fun _ => ⟨⟨[]⟩, rfl⟩⟩,
    metric_alert_classification envW srcW 0 ⟨rfl, fun _ => ⟨⟨[]⟩, rfl⟩⟩⟩

/-- Witness for C2 at the concrete environment `envW` and source `srcW`. -/
theorem disease_alert_classification_witness :
    watsonOK envW.world ∧
      (check_health_risk_alerts envW srcW 0).toOption.map
          (fun p => p.1.map alertShape) =
        some ((srcW.diseases.filter qualifiesDisease).map
          (diseaseAlertShape srcW.name)) :=
  ⟨⟨rfl, fun _ => ⟨⟨[]⟩, rfl⟩⟩,
    disease_alert_classification envW srcW 0 ⟨rfl, fun _ => ⟨⟨[]⟩, rfl⟩⟩⟩

/-- Witness for C3 at the concrete environment `envW` over `[srcW]`. -/
theorem alerts_aggregation_complete_witness :
    watsonOK envW.world ∧
      ((get_alerts envW [srcW]).toOption.map (fun l => l.map alertShape) =
          some (specAlerts [srcW]) ∧
        (get_alerts envW [srcW]).toOption.map List.length =
          some (specAlerts [srcW]).length) :=
  ⟨⟨rfl, fun _ => ⟨⟨[]⟩, rfl⟩⟩,
    alerts_aggregation_complete envW [srcW] ⟨rfl, fun _ => ⟨⟨[]⟩, rfl⟩⟩⟩

/-- Witness for C8: `envW.uuid` is injective and the two alerts returned at
`envW` carry distinct identifiers, the consecutive draws 0 and 1. -/
theorem alert_ids_unique_witness :
    Function.Injective envW.uuid ∧
      get_alerts envW [srcW] = Except.ok alertsW ∧
      (alertsW.map Alert.id = uuidRange envW 0 alertsW.length ∧
        (alertsW.map Alert.id).Nodup) := by
  have hinj : Function.Injective envW.uuid := by
    intro a b hab
    have h2 : List.replicate a 'a' = List.replicate b 'a' :=
      congrArg String.data hab
    simpa using congrArg List.length h2
  exact ⟨hinj, rfl, alert_ids_unique envW [srcW] alertsW hinj rfl⟩

/-- Witness for C5 on a concrete empty-choices world. -/
theorem empty_choices_fallback_witness :
    wOK.iam.status_code = 200 ∧
      wOK.completion "Is tap water safe?" = CompletionOutcome.success ⟨[]⟩ ∧
      (⟨[]⟩ : CompletionResponse).choices = [] ∧
      query_watsonx wOK "Is tap water safe?" =
        Except.ok "No response from AI." :=
  ⟨rfl, rfl, rfl,
    empty_choices_fallback wOK "Is tap water safe?" ⟨[]⟩ rfl rfl rfl⟩

/-- A concrete quality prediction for the C6 witness store. -/
def predW : QualityPrediction :=
  { score := 85, status := "good", description := "Stable",
    improvementSteps := ["chlorinate"] }

/-- Witness for C6: the identifier "missing" is absent from both stores. -/
theorem unknown_id_yields_not_found_witness :
    (∀ s ∈ [srcW], s.id ≠ "missing") ∧
      (∀ p ∈ [("ws1", predW)], p.1 ≠ "missing") ∧
      (get_water_source_by_id [srcW] "missing" =
          Except.error ⟨404, "Water source not found"⟩ ∧
        get_quality_prediction [("ws1", predW)] "missing" =
          Except.error ⟨404, "Prediction not found"⟩) := by
  have h1 : ∀ s ∈ [srcW], s.id ≠ "missing" := by decide
  have h2 : ∀ p ∈ [("ws1", predW)], p.1 ≠ "missing" := by decide
  exact ⟨h1, h2, unknown_id_yields_not_found [srcW] [("ws1", predW)] "missing" h1 h2⟩

/-- A metric carrying a status tag outside the documented set. -/
def mUnknown : Metric :=
  { id := "m9", name := "Lead", value := 3, unit := "ug/L",
    safeRange := [0, 10], status := "unknown", icon := "warn" }

/-- A disease carrying a riskLevel tag outside the documented set. -/
def dUnknown : Disease :=
  { id := "d9", name := "Giardia", riskLevel := "unrated",
    description := "Parasite", causedBy := [] }

/-- Witness for C9 at concrete unrecognised tags. -/
theorem unrecognised_tags_produce_no_alert_witness :
    (mUnknown.status ≠ "danger" ∧ mUnknown.status ≠ "warning" ∧
      dUnknown.riskLevel ≠ "high" ∧ dUnknown.riskLevel ≠ "medium") ∧
      (checkWaterQualityAux envW "Lake Naledi" [mUnknown] 0 =
          checkWaterQualityAux envW "Lake Naledi" [] 0 ∧
        checkHealthRiskAux envW "Lake Naledi" [dUnknown] 0 =
          checkHealthRiskAux envW "Lake Naledi" [] 0) :=
  ⟨⟨by decide, by decide, by decide, by decide⟩,
    unrecognised_tags_produce_no_alert envW "Lake Naledi" mUnknown [] dUnknown
      [] 0 (by decide) (by decide) (by decide) (by decide)⟩

/-- A world whose completion response has one choice without a message. -/
def wNoContent : WatsonWorld :=
  { iam := ⟨200, some "token"⟩
    completion := fun _ => CompletionOutcome.success ⟨[⟨none⟩]⟩ }

/-- Witness for C10 on a concrete choices list whose first choice lacks the
"message" object. -/
theorem missing_content_fallback_witness :
    wNoContent.iam.status_code = 200 ∧
      wNoContent.completion "advice" = CompletionOutcome.success ⟨[⟨none⟩]⟩ ∧
      (⟨[⟨none⟩]⟩ : CompletionResponse).choices = [⟨none⟩] ∧
      ((⟨none⟩ : Choice).message = none ∨
        ∃ m, (⟨none⟩ : Choice).message = some m ∧ m.content = none) ∧
      query_watsonx wNoContent "advice" = Except.ok "No response from AI." :=
  ⟨rfl, rfl, rfl, Or.inl rfl,
    missing_content_fallback wNoContent "advice" ⟨[⟨none⟩]⟩ ⟨none⟩ [] rfl rfl
      rfl (Or.inl rfl)⟩

/-- Witness for the amended C7 at the concrete world `wGeneric`. -/
theorem agent_forwards_to_advisory_witness :
    water_quality_agent wGeneric "Is borehole water safe?" =
        Except.ok ⟨"Generic advice about water."⟩ ∧
      (wGeneric.iam.status_code = 200 ∧
        ∃ resp, wGeneric.completion "Is borehole water safe?" =
            CompletionOutcome.success resp ∧
          (AgentResponse.mk "Generic advice about water.").response =
            extractReply resp) :=
  ⟨rfl, agent_forwards_to_advisory wGeneric "Is borehole water safe?"
    ⟨"Generic advice about water."⟩ rfl⟩

end BlueWaters
